import Mathlib

/-!
Shallow embedding of the fees-ssl-bot backend (two server variants:
a Supabase/database-backed server and a file-backed server) together
with proofs about its persistence, archive, backup, settings and chat
operations.

Conventions used throughout:
* JavaScript JSON values are modelled by `JVal`; JS truthiness of a
  value is `JVal.truthy` (null, false, 0 and "" are falsy; arrays and
  objects are truthy).
* The single-row `app_state` table of the database variant is modelled
  as `Option (AppState σ)` (`none` = the row does not exist).
* A file of the file-backed variant is modelled as
  `Option (Option α)`: `none` = the file does not exist,
  `some none` = the file exists but is empty or unparseable,
  `some (some v)` = the file exists and parses to `v`.
* Handlers are pure functions from the request data and the current
  store to the response and the next store; network I/O performed by
  the chat handlers is abstracted as an outcome argument (the result
  the upstream provider would deliver).
-/

/-- A JSON value as manipulated by the JavaScript code. -/
inductive JVal where
  | null
  | bool (b : Bool)
  | num (n : Int)
  | str (s : String)
  | arr (xs : List JVal)
  | obj (fields : List (String × JVal))

/-- JavaScript truthiness of a JSON value (`!v` in JS is `!v.truthy`).
`null`, `false`, `0` and `""` are falsy; arrays and objects are truthy. -/
def JVal.truthy : JVal → Bool
  | .null => false
  | .bool b => b
  | .num n => n != 0
  | .str s => s != ""
  | .arr _ => true
  | .obj _ => true

/-- Field access `v.k` (JS optional chaining `v?.k`): `none` when `v` is
not an object or lacks the field. -/
def JVal.getField : JVal → String → Option JVal
  | .obj fields, k => fields.lookup k
  | _, _ => none

/-- `Array.isArray` refinement: the element list when the value is an array. -/
def JVal.asArray : JVal → Option (List JVal)
  | .arr xs => some xs
  | _ => none

/-- A student record as handled by `POST /api/archive/student`: an `id`
field, the two fields the archive operation stamps (absent until then),
and an opaque remainder standing for all other fields of the record. -/
structure Student where
  id : String
  status : Option String
  archivedAt : Option String
  rest : String

/-- The single persisted application document
`\x7b students, archived, settings \x7d`, generic in the student
representation `σ` (structured `Student` for the archive claims, raw
`JVal` for the data endpoints); `settings` is a JS object, i.e. a
key-value list. -/
structure AppState (σ : Type) where
  students : List σ
  archived : List σ
  settings : List (String × JVal)

/-- The fixed empty default document `\x7bstudents: [], archived: [],
settings: \x7b\x7d\x7d` used by `loadState` (part_000) as fallback. -/
def emptyAppState {σ : Type} : AppState σ :=
  { students := [], archived := [], settings := [] }

/-- `loadState` of the database variant (part_000, assuming Supabase is
configured): returns the row's document, or — when the `select ...
single()` errors because the row is absent — upserts and returns the
empty default.  Result: the returned document and the table after the
call. -/
def loadState {σ : Type} (db : Option (AppState σ)) :
    AppState σ × Option (AppState σ) :=
  match db with
  | none => (emptyAppState, some emptyAppState)
  | some d => (d, some d)

/-- `saveState` of the database variant: upserts the document wholesale
(the `updated_at` column is metadata and is not modelled). -/
def saveState {σ : Type} (d : AppState σ) (_db : Option (AppState σ)) :
    Option (AppState σ) :=
  some d

/-- `readJSONFile(filePath, fallback)` of the file variant (server.js):
returns the parsed contents, or the fallback when the file is absent,
empty or unparseable.  It performs no write, so the second component
(the file after the call) is always the file as it was. -/
def readJSONFile {α : Type} (file : Option (Option α)) (fallback : α) :
    α × Option (Option α) :=
  match file with
  | none => (fallback, none)
  | some none => (fallback, some none)
  | some (some v) => (v, some (some v))

/-- `writeJSONFile(filePath, data)` of the file variant: replaces the
file contents wholesale and reports success (filesystem errors are not
modelled). -/
def writeJSONFile {α : Type} (d : α) (_file : Option (Option α)) :
    Option (Option α) × Bool :=
  (some (some d), true)

/-- Outcome of `POST /api/archive/student` (part_000): the 400
`studentId required` response, the `\x7bok:true\x7d` short-circuit that
performs no save, or `\x7bok:true\x7d` after `saveState` of the given
document. -/
inductive ArchiveRes where
  | badRequest
  | okNoSave (st : AppState Student)
  | okSaved (st : AppState Student)

/-- Placeholder student for the (unreachable) out-of-bounds index
access, mirroring `state.students[idx]`. -/
def defaultStudent : Student :=
  { id := "", status := none, archivedAt := none, rest := "" }

/-- The `POST /api/archive/student` handler of part_000 on a loaded
document `st`: rejects a falsy `studentId`; finds the first student
with that id (`findIndex`); if none, answers `\x7bok:true\x7d` without
saving; otherwise splices it out, stamps `status = "Archived"` and
`archivedAt = now`, unshifts it onto `archived` and saves. -/
def archiveStudent (studentId now : String) (st : AppState Student) :
    ArchiveRes :=
  if studentId = "" then .badRequest
  else
    match st.students.findIdx? (fun s => s.id == studentId) with
    | none => .okNoSave st
    | some idx =>
      let student := st.students.getD idx defaultStudent
      let student := { student with status := some "Archived",
                                    archivedAt := some now }
      .okSaved { st with students := st.students.eraseIdx idx,
                         archived := student :: st.archived }

/-- The `POST /api/data` handler of part_000 on a loaded document:
takes `req.body?.students` if it is an array, else
`req.body?.data?.students` if that is an array, else keeps
`state.students`; stores the result in `state.students`, saves the
whole document and answers `\x7bok:true\x7d` (the `Bool`). -/
def postData (body : Option JVal) (st : AppState JVal) :
    AppState JVal × Bool :=
  let students :=
    match body.bind (fun b => (b.getField "students").bind JVal.asArray) with
    | some xs => xs
    | none =>
      match body.bind (fun b => (b.getField "data").bind
          (fun d => (d.getField "students").bind JVal.asArray)) with
      | some xs => xs
      | none => st.students
  ({ st with students := students }, true)

/-- The `backups` table of part_000, modelled as the list of stored
payloads; a row's generated id is its index in the list. -/
def backupInsert (payload : JVal) (backups : List JVal) :
    Nat × List JVal :=
  (backups.length, backups ++ [payload])

/-- The `POST /api/backup` handler of part_000 (assuming Supabase is
configured): rejects a falsy `req.body?.data` with 400 `data required`,
otherwise inserts the payload and answers `\x7bbackup: id\x7d`. -/
def backupPost (payload : JVal) (backups : List JVal) :
    Except String (Nat × List JVal) :=
  if payload.truthy then .ok (backupInsert payload backups)
  else .error "data required"

/-- The `GET /api/restore/:id` handler of part_000: returns the stored
payload verbatim, or a 500 error when the `select ... single()` finds
no row for the id. -/
def restoreGet (id : Nat) (backups : List JVal) : Except String JVal :=
  match backups[id]? with
  | some payload => .ok payload
  | none => .error "no rows returned"

/-- JS object spread `\x7b ...old, ...new \x7d` on key-value lists:
keys of `old` keep their position but take the overriding value from
`nw` when present; keys only in `nw` follow in their order. -/
def spreadMerge (old nw : List (String × JVal)) :
    List (String × JVal) :=
  old.map (fun kv => (kv.1, ((nw.lookup kv.1).getD kv.2)))
    ++ nw.filter (fun kv => (old.lookup kv.1).isNone)

/-- Truthiness of `obj.k` for a JS object: false when the field is
absent (undefined) or its value is falsy. -/
def truthyField (s : List (String × JVal)) (k : String) : Bool :=
  match s.lookup k with
  | some v => v.truthy
  | none => false

/-- JS `delete obj[k]` on a key-value list. -/
def deleteKey (s : List (String × JVal)) (k : String) :
    List (String × JVal) :=
  s.filter (fun kv => kv.1 != k)

/-- The `POST /api/settings` handler of part_000 on a loaded document:
shallow-merges the body into `settings`, then deletes `openaiKey` and
`geminiKey` — each only when its merged value is truthy (`if
(state.settings.openaiKey) delete ...`) — saves and answers
`\x7bok:true\x7d`. -/
def settingsPost {σ : Type} (body : List (String × JVal))
    (st : AppState σ) : AppState σ :=
  let merged := spreadMerge st.settings body
  let s1 := if truthyField merged "openaiKey"
            then deleteKey merged "openaiKey" else merged
  let s2 := if truthyField s1 "geminiKey"
            then deleteKey s1 "geminiKey" else s1
  { st with settings := s2 }

/-- The `GET /api/settings` handler of part_000: returns
`state.settings` (or `\x7b\x7d` when absent; `settings` is always
present in the model). -/
def settingsGet {σ : Type} (st : AppState σ) : List (String × JVal) :=
  st.settings

/-- The `GET /api/settings` handler of server.js: a stub that always
answers the fixed object `\x7bok:true\x7d`, reading nothing. -/
def settingsGetFile : JVal :=
  .obj [("ok", .bool true)]

/-- The `POST /api/settings` handler of server.js: a stub that ignores
its body, stores nothing and always answers `\x7bok:true\x7d`. -/
def settingsPostFile (_body : Option JVal) : JVal :=
  .obj [("ok", .bool true)]

/-- One message of an upstream chat request. -/
structure Msg where
  role : String
  content : String
deriving DecidableEq, Repr

/-- One entry of the caller-supplied chat history as read by server.js:
a `role` and an optional `text` field (`h.text` may be absent). -/
structure HistEntry where
  role : String
  text : Option String
deriving DecidableEq, Repr

/-- The fixed system instruction of server.js's `buildMessages`. -/
def sslSystemMsg : Msg :=
  { role := "system",
    content := "You are SSL BOT for Savitri Success Library. Answer in simple Hinglish. Help students for any subject/exam. Be polite, concise, and accurate. If asked for study material, share official/free resources links when possible." }

/-- Mapping of one history entry by server.js's `buildMessages`:
`null` entries and entries whose role is none of `user`, `model`,
`assistant` map to `null` and are filtered out; kept entries carry
`String(h.text || "")`. -/
def mapHistEntry (h : Option HistEntry) : Option Msg :=
  match h with
  | none => none
  | some h =>
    if h.role = "user" then some { role := "user", content := h.text.getD "" }
    else if h.role = "model" ∨ h.role = "assistant" then
      some { role := "assistant", content := h.text.getD "" }
    else none

/-- `buildMessages(message, history)` of server.js: the fixed system
instruction, then the mapped and filtered history (a non-array history
counts as `[]`, its entries may be `null`), then one user turn with the
message. -/
def buildMessages (message : String)
    (history : Option (List (Option HistEntry))) : List Msg :=
  sslSystemMsg :: ((history.getD []).filterMap mapHistEntry
    ++ [{ role := "user", content := message }])

/-- The fixed developer instruction of part_000's `callOpenAI`. -/
def sslDeveloperMsg : Msg :=
  { role := "developer",
    content := "You are SSL Bot for Savitri Success Library. Answer in simple Hinglish. Be concise and helpful." }

/-- The `input` list built by part_000's `callOpenAI`: the developer
instruction, the raw history spread in unchanged (a non-array history
counts as `[]`), then one user turn with the message. -/
def openAIInput (message : String) (history : Option (List Msg)) :
    List Msg :=
  sslDeveloperMsg :: (history.getD [] ++ [{ role := "user", content := message }])

/-- JS `String.prototype.trim()`: strips leading and trailing
whitespace (implemented over the character list so that it evaluates
inside the kernel). -/
def jsTrim (s : String) : String :=
  ⟨((s.data.dropWhile Char.isWhitespace).reverse.dropWhile
      Char.isWhitespace).reverse⟩

/-- Outcome of one Gemini model attempt in server.js's `callGemini`:
an HTTP 200 with the extracted candidate text (possibly empty), or a
failure (non-200 status, network error or parse error) with the error
message `callGemini` derives from it. -/
inductive ModelResult where
  | httpOk (text : String)
  | httpErr (msg : String)

/-- An attempt that does not produce usable text: a failure, or a 200
whose text is empty after trimming. -/
def modelFails : ModelResult → Bool
  | .httpOk t => jsTrim t == ""
  | .httpErr _ => true

/-- The fixed ordered model list of server.js's `callGemini`. -/
def geminiModels : List String :=
  ["gemini-2.0-flash", "gemini-2.5-flash", "gemini-2.0-flash-lite-001"]

/-- The model-iteration loop of `callGemini`: try each model in order;
on a 200 with non-empty trimmed text return that text and the model
name; otherwise remember the failure message (`Gemini empty response
(model)` for an empty 200) and continue; when the list is exhausted
throw the last failure (or `Gemini failed` if there was none). -/
def geminiTry (outcome : String → ModelResult) :
    List String → Option String → Except String (String × String)
  | [], lastErr => .error (lastErr.getD "Gemini failed")
  | m :: ms, _ =>
    match outcome m with
    | .httpOk t =>
      if jsTrim t ≠ "" then .ok (jsTrim t, m)
      else geminiTry outcome ms (some ("Gemini empty response (" ++ m ++ ")"))
    | .httpErr msg => geminiTry outcome ms (some msg)

/-- `callGemini` of server.js: throws when no `GEMINI_API_KEY` is set,
otherwise iterates the fixed model list. -/
def callGemini (geminiKey : String) (outcome : String → ModelResult) :
    Except String (String × String) :=
  if geminiKey = "" then .error "GEMINI_API_KEY not set on server"
  else geminiTry outcome geminiModels none

/-- Response of a chat endpoint: 400 for a missing message, a success
payload (text, `provider` tag, optional `modelUsed` tag), or a 500 with
an error message. -/
inductive ChatResp where
  | badRequest (msg : String)
  | chatOk (text provider : String) (modelUsed : Option String)
  | serverError (msg : String)

/-- The `POST /api/chat` handler of server.js.  `openai` is the outcome
of `callOpenAI` (its thrown message or its text): on success answer
with `provider: "openai"`; on failure, when a Gemini key is configured
run `callGemini` and answer with `provider: "gemini"` and the model
used; otherwise rethrow.  The outer catch answers 500 with
`e.message || "Chat failed"`. -/
def chatHandlerFile (message : String) (openai : Except String String)
    (geminiKey : String) (outcome : String → ModelResult) : ChatResp :=
  if message = "" then .badRequest "message is required"
  else
    match openai with
    | .ok text => .chatOk text "openai" none
    | .error e1 =>
      if geminiKey ≠ "" then
        match callGemini geminiKey outcome with
        | .ok (text, model) => .chatOk text "gemini" (some model)
        | .error e2 => .serverError (if e2 = "" then "Chat failed" else e2)
      else .serverError (if e1 = "" then "Chat failed" else e1)

/-- The `POST /api/chat` handler of part_000: only the OpenAI provider
exists (no fallback); on failure the catch answers 500 with
`e.message || "Chat failed"`. -/
def chatHandlerDB (message : String) (openai : Except String String) :
    ChatResp :=
  if message = "" then .badRequest "message is required"
  else
    match openai with
    | .ok reply => .chatOk reply "openai" none
    | .error e => .serverError (if e = "" then "Chat failed" else e)

/-! ## Concrete inputs used by witnesses and counterexamples -/

/-- A concrete student record. -/
def stuAlice : Student :=
  { id := "alice", status := none, archivedAt := none, rest := "fees-due" }

/-- A concrete document containing `stuAlice`. -/
def stWitness : AppState Student :=
  { students := [stuAlice], archived := [], settings := [] }

/-- A concrete student whose `id` is the empty string (students are
arbitrary caller-supplied records, so nothing prevents this). -/
def stuEmptyId : Student :=
  { id := "", status := none, archivedAt := none, rest := "r" }

/-- A concrete document containing only `stuEmptyId`. -/
def stEmptyId : AppState Student :=
  { students := [stuEmptyId], archived := [], settings := [] }

/-- Concrete per-model Gemini outcomes: the first model errors, the
second answers usable text, the third answers empty text. -/
def gemOutcomeW : String → ModelResult := fun m =>
  if m = "gemini-2.0-flash" then .httpErr "quota exceeded"
  else if m = "gemini-2.5-flash" then .httpOk " namaste "
  else .httpOk ""

/-- Concrete per-model Gemini outcomes where every model fails. -/
def gemOutcomeFail : String → ModelResult := fun _ =>
  .httpErr "quota exceeded"

/-- A concrete `POST /api/data` body with no array at `students` and
none at `data.students`. -/
def bodyNoStudents : Option JVal :=
  some (.obj [("foo", .num 1), ("data", .obj [("bar", .str "x")])])

/-- A concrete document for the `POST /api/data` frame claim. -/
def stC10 : AppState JVal :=
  { students := [.str "s1"], archived := [.str "a1"],
    settings := [("theme", .str "dark")] }

/-! ## Helper lemmas -/

/-- Decomposition of a successful `findIndex`: when some element of `l`
satisfies `p`, the list splits around the first such element, and
`findIdx?`, `eraseIdx` (the `splice(idx, 1)`) and `getD` (the `[idx]`
access) all agree with that split. -/
theorem findIdx?_first_decomp {α : Type} (p : α → Bool) (l : List α) (d : α)
    (h : ∃ s ∈ l, p s = true) :
    ∃ pre s post, l = pre ++ s :: post ∧ p s = true ∧
      (∀ t ∈ pre, p t = false) ∧
      l.findIdx? p = some pre.length ∧
      l.eraseIdx pre.length = pre ++ post ∧
      l.getD pre.length d = s := by
  induction l with
  | nil => simp at h
  | cons a l ih =>
    cases hp : p a with
    | true =>
      exact ⟨[], a, l, rfl, hp, by simp, by simp [List.findIdx?_cons, hp],
        by simp, by simp⟩
    | false =>
      obtain ⟨s, hs, hps⟩ := h
      rcases List.mem_cons.mp hs with rfl | hsl
      · rw [hp] at hps; cases hps
      · obtain ⟨pre, s', post, heq, hps', hpre, hfind, herase, hget⟩ :=
          ih ⟨s, hsl, hps⟩
        refine ⟨a :: pre, s', post, by simp [heq], hps', ?_, ?_, ?_, ?_⟩
        · intro t ht
          rcases List.mem_cons.mp ht with rfl | htp
          · exact hp
          · exact hpre t htp
        · rw [List.findIdx?_cons, hp]
          simp [List.findIdx?_succ, hfind]
        · rw [List.length_cons, List.eraseIdx_cons_succ, herase]
          rfl
        · rw [List.length_cons, List.getD_cons_succ]
          exact hget

/-! ## C1: archiving a present student -/

/-- C1 counterexample: the claim quantifies over every state whose
students list contains a student with the given identifier, but for
`studentId = ""` (which a student record may well carry) the handler's
`if (!studentId)` guard answers 400 `studentId required` instead of
archiving and answering `\x7bok:true\x7d`. -/
theorem archiveStudent_emptyId_counterexample :
    (∃ s ∈ stEmptyId.students, s.id = "") ∧
    archiveStudent "" "2024-05-01T00:00:00.000Z" stEmptyId =
      .badRequest := by
  exact ⟨⟨stuEmptyId, by simp [stEmptyId], rfl⟩, rfl⟩

/-- C1 (amended): for every non-empty (truthy) `studentId`, if the
students list contains a student with that identifier then
`archiveStudent` removes the first such student from `students`, stamps
`status = "Archived"` and `archivedAt` with the current timestamp,
prepends it to `archived`, leaves `settings` untouched, saves the whole
document, and answers `\x7bok:true\x7d`. -/
theorem archiveStudent_found (sid now : String) (st : AppState Student)
    (hsid : sid ≠ "") (h : ∃ s ∈ st.students, s.id = sid) :
    ∃ pre s post,
      st.students = pre ++ s :: post ∧ s.id = sid ∧
      (∀ t ∈ pre, t.id ≠ sid) ∧
      archiveStudent sid now st =
        .okSaved { students := pre ++ post,
                   archived := { s with status := some "Archived",
                                        archivedAt := some now }
                     :: st.archived,
                   settings := st.settings } := by
  obtain ⟨pre, s, post, heq, hps, hpre, hfind, herase, hget⟩ :=
    findIdx?_first_decomp (fun s => s.id == sid) st.students defaultStudent
      (by obtain ⟨s, hs, hid⟩ := h; exact ⟨s, hs, by simp [hid]⟩)
  refine ⟨pre, s, post, heq, by simpa using hps, ?_, ?_⟩
  · intro t ht
    simpa using hpre t ht
  · unfold archiveStudent
    rw [if_neg hsid, hfind]
    dsimp only
    rw [hget, herase]

/-- C1 witness: the amended theorem applied to a concrete document
containing the student `alice`. -/
theorem archiveStudent_found_witness :
    ∃ pre s post,
      stWitness.students = pre ++ s :: post ∧ s.id = "alice" ∧
      (∀ t ∈ pre, t.id ≠ "alice") ∧
      archiveStudent "alice" "2024-05-01T00:00:00.000Z" stWitness =
        .okSaved { students := pre ++ post,
                   archived := { s with status := some "Archived",
                                        archivedAt :=
                                          some "2024-05-01T00:00:00.000Z" }
                     :: stWitness.archived,
                   settings := stWitness.settings } :=
  archiveStudent_found "alice" "2024-05-01T00:00:00.000Z" stWitness
    (by decide) ⟨stuAlice, by simp [stWitness], rfl⟩

/-! ## C2: archiving an unknown student id -/

/-- C2 counterexample: the claim quantifies over every state in which
no student carries the identifier, but for `studentId = ""` the
handler's `if (!studentId)` guard answers 400 `studentId required`, not
`\x7bok:true\x7d`. -/
theorem archiveStudent_emptyId_notFound_counterexample :
    (∀ s ∈ (emptyAppState (σ := Student)).students, s.id ≠ "") ∧
    archiveStudent "" "2024-05-01T00:00:00.000Z" emptyAppState =
      .badRequest := by
  constructor
  · intro s hs
    simp [emptyAppState] at hs
  · rfl

/-- C2 (amended): for every non-empty (truthy) `studentId` absent from
the students list, the handler answers `\x7bok:true\x7d` without saving
and with the document unchanged, and a second call (with any timestamp)
yields the same result. -/
theorem archiveStudent_notFound (sid now now2 : String)
    (st : AppState Student) (hsid : sid ≠ "")
    (h : ∀ s ∈ st.students, s.id ≠ sid) :
    archiveStudent sid now st = .okNoSave st ∧
    archiveStudent sid now2 st = .okNoSave st := by
  have hfind : st.students.findIdx? (fun s => s.id == sid) = none := by
    rw [List.findIdx?_eq_none_iff]
    intro s hs
    simpa using h s hs
  constructor <;> (unfold archiveStudent; rw [if_neg hsid, hfind])

/-- C2 witness: the amended theorem applied to a concrete document not
containing the id `bob`. -/
theorem archiveStudent_notFound_witness :
    archiveStudent "bob" "2024-05-01T00:00:00.000Z" stWitness =
      .okNoSave stWitness ∧
    archiveStudent "bob" "2024-06-01T00:00:00.000Z" stWitness =
      .okNoSave stWitness :=
  archiveStudent_notFound "bob" "2024-05-01T00:00:00.000Z"
    "2024-06-01T00:00:00.000Z" stWitness (by decide)
    (by
      intro s hs
      simp only [stWitness, List.mem_singleton] at hs
      subst hs
      decide)

/-! ## C3: load of a missing document -/

/-- C3 counterexample: in the file-backed variant, loading a missing
file returns the fallback but creates nothing on the backing store —
the file is still absent afterwards, so the claimed side effect (and
with it the claim for "both storage variants") fails. -/
theorem readJSONFile_missing_counterexample :
    readJSONFile (none : Option (Option (AppState JVal))) emptyAppState =
      (emptyAppState, none) ∧
    (none : Option (Option (AppState JVal))) ≠
      some (some emptyAppState) := by
  exact ⟨rfl, by simp⟩

/-- C3 (amended): when no persisted document exists, the
database-backed `loadState` returns the fixed empty default and upserts
it, so a second load reads the persisted row; the file-backed
`readJSONFile` returns its fallback without creating the file, so a
second load hits the missing-file branch again. -/
theorem load_missing_document (σ α : Type) (fallback : α) :
    loadState (σ := σ) none = (emptyAppState, some emptyAppState) ∧
    loadState (σ := σ) (loadState (σ := σ) none).2 =
      (emptyAppState, some emptyAppState) ∧
    readJSONFile (α := α) none fallback = (fallback, none) ∧
    readJSONFile (α := α) (readJSONFile (α := α) none fallback).2 fallback =
      (fallback, none) :=
  ⟨rfl, rfl, rfl, rfl⟩

/-! ## C4: save/load round trip -/

/-- C4: in both variants, a save followed immediately by a load returns
exactly the saved document (and, in the database variant, the store
then holds exactly that document). -/
theorem save_load_roundtrip (σ α : Type) (d : AppState σ)
    (db : Option (AppState σ)) (v : α) (file : Option (Option α))
    (fallback : α) :
    loadState (saveState d db) = (d, some d) ∧
    (readJSONFile (writeJSONFile v file).1 fallback).1 = v :=
  ⟨rfl, rfl⟩

/-! ## C5: backup/restore round trip -/

/-- C5 counterexample: the claim quantifies over every payload, but for
a falsy payload (here JSON `null`, e.g. `POST /api/backup` with
`\x7bdata: null\x7d`) the handler's `if (!payload)` guard answers 400
`data required` and no backup record or identifier is produced. -/
theorem backup_falsy_counterexample :
    backupPost JVal.null [] = .error "data required" := rfl

/-- C5 (amended): for every truthy payload, `backup` answers with an
identifier under which `restore` returns the payload verbatim, and
`restore` of an identifier for which no record exists answers the
not-found error. -/
theorem backup_restore_roundtrip (p : JVal) (backups : List JVal)
    (hp : p.truthy = true) :
    (∃ id backups', backupPost p backups = .ok (id, backups') ∧
      restoreGet id backups' = .ok p) ∧
    ∀ (id : Nat) (bs : List JVal), bs.length ≤ id →
      restoreGet id bs = .error "no rows returned" := by
  constructor
  · refine ⟨backups.length, backups ++ [p], ?_, ?_⟩
    · unfold backupPost
      rw [if_pos hp]
      rfl
    · unfold restoreGet
      rw [List.getElem?_concat_length]
  · intro id bs hid
    unfold restoreGet
    rw [List.getElem?_eq_none hid]

/-- C5 witness: the amended theorem applied to a concrete payload and
an empty backups table, plus a concrete missing identifier. -/
theorem backup_restore_roundtrip_witness :
    (∃ id backups',
      backupPost (JVal.str "snapshot") [] = .ok (id, backups') ∧
      restoreGet id backups' = .ok (JVal.str "snapshot")) ∧
    restoreGet 5 [JVal.str "snapshot"] = .error "no rows returned" :=
  ⟨(backup_restore_roundtrip (JVal.str "snapshot") [] (by decide)).1,
   (backup_restore_roundtrip (JVal.str "snapshot") [] (by decide)).2
     5 [JVal.str "snapshot"] (by decide)⟩

/-! ## C6: chat fallback -/

/-- The model-iteration loop succeeds on the first model that yields a
200 with non-empty trimmed text, returning that text and model,
whatever failures preceded it. -/
theorem geminiTry_first_success (outcome : String → ModelResult)
    (pre : List String) (m : String) (post : List String) (t : String)
    (lastErr : Option String)
    (hpre : ∀ m' ∈ pre, modelFails (outcome m') = true)
    (hm : outcome m = .httpOk t) (ht : jsTrim t ≠ "") :
    geminiTry outcome (pre ++ m :: post) lastErr = .ok (jsTrim t, m) := by
  induction pre generalizing lastErr with
  | nil =>
    simp only [List.nil_append]
    unfold geminiTry
    rw [hm]
    simp [ht]
  | cons a pre ih =>
    have ha : modelFails (outcome a) = true := hpre a (by simp)
    have hpre' : ∀ m' ∈ pre, modelFails (outcome m') = true := by
      intro m' hm'
      exact hpre m' (by simp [hm'])
    show geminiTry outcome (a :: (pre ++ m :: post)) lastErr = _
    unfold geminiTry
    cases houtcome : outcome a with
    | httpOk s =>
      have hs : (jsTrim s == "") = true := by
        rw [houtcome] at ha
        exact ha
      rw [beq_iff_eq] at hs
      simp [hs, ih _ hpre']
    | httpErr msg =>
      exact ih _ hpre'

/-- When every model fails (error or empty text), the loop throws some
error. -/
theorem geminiTry_all_fail (outcome : String → ModelResult)
    (ms : List String) (lastErr : Option String)
    (hall : ∀ m ∈ ms, modelFails (outcome m) = true) :
    ∃ e, geminiTry outcome ms lastErr = .error e := by
  induction ms generalizing lastErr with
  | nil => exact ⟨lastErr.getD "Gemini failed", rfl⟩
  | cons a ms ih =>
    have ha : modelFails (outcome a) = true := hall a (by simp)
    have hall' : ∀ m ∈ ms, modelFails (outcome m) = true := by
      intro m hm
      exact hall m (by simp [hm])
    show ∃ e, geminiTry outcome (a :: ms) lastErr = .error e
    unfold geminiTry
    cases houtcome : outcome a with
    | httpOk s =>
      have hs : (jsTrim s == "") = true := by
        rw [houtcome] at ha
        exact ha
      rw [beq_iff_eq] at hs
      simpa [hs] using ih _ hall'
    | httpErr msg =>
      exact ih _ hall'

/-- C6: for every non-empty chat message whose primary (OpenAI) call
fails with message `e1`: with no Gemini key configured the endpoint
answers 500 with a non-empty message (the primary's own, or `Chat
failed`); with a key configured, the fallback iterates the ordered
model list and the first model yielding non-empty trimmed text
determines the success response, whose provider field is `gemini`; if
every model fails the endpoint answers 500 with a non-empty message and
nothing further is attempted.  The database variant, which has no
secondary provider, answers 500 with a non-empty message on primary
failure. -/
theorem chat_fallback (message e1 geminiKey : String)
    (outcome : String → ModelResult) (hmsg : message ≠ "") :
    (geminiKey = "" →
      chatHandlerFile message (.error e1) geminiKey outcome =
        .serverError (if e1 = "" then "Chat failed" else e1) ∧
      (if e1 = "" then "Chat failed" else e1) ≠ "") ∧
    (geminiKey ≠ "" →
      ∀ pre m post t, geminiModels = pre ++ m :: post →
        (∀ m' ∈ pre, modelFails (outcome m') = true) →
        outcome m = .httpOk t → jsTrim t ≠ "" →
        chatHandlerFile message (.error e1) geminiKey outcome =
          .chatOk (jsTrim t) "gemini" (some m)) ∧
    (geminiKey ≠ "" →
      (∀ m ∈ geminiModels, modelFails (outcome m) = true) →
      ∃ msg, msg ≠ "" ∧
        chatHandlerFile message (.error e1) geminiKey outcome =
          .serverError msg) ∧
    chatHandlerDB message (.error e1) =
      .serverError (if e1 = "" then "Chat failed" else e1) ∧
    (if e1 = "" then "Chat failed" else e1) ≠ "" := by
  have hne : (if e1 = "" then "Chat failed" else e1) ≠ "" := by
    split
    · decide
    · assumption
  refine ⟨?_, ?_, ?_, ?_, hne⟩
  · intro hk
    subst hk
    refine ⟨?_, hne⟩
    unfold chatHandlerFile
    rw [if_neg hmsg]
    simp
  · intro hk pre m post t hmodels hpre hm ht
    unfold chatHandlerFile
    rw [if_neg hmsg]
    simp only [if_pos hk]
    unfold callGemini
    rw [if_neg hk, hmodels,
      geminiTry_first_success outcome pre m post t none hpre hm ht]
  · intro hk hall
    obtain ⟨e, he⟩ := geminiTry_all_fail outcome geminiModels none hall
    refine ⟨if e = "" then "Chat failed" else e, ?_, ?_⟩
    · split
      · decide
      · assumption
    · unfold chatHandlerFile
      rw [if_neg hmsg]
      simp only [if_pos hk]
      unfold callGemini
      rw [if_neg hk, he]
  · unfold chatHandlerDB
    rw [if_neg hmsg]

/-- C6 witness: the theorem applied to a concrete failing primary call,
with (a) no Gemini key, (b) a key and a second model that answers
usable text after the first errors, (c) a key with every model
failing. -/
theorem chat_fallback_witness :
    chatHandlerFile "hello" (.error "OpenAI error HTTP 500") ""
      gemOutcomeW = .serverError "OpenAI error HTTP 500" ∧
    chatHandlerFile "hello" (.error "OpenAI error HTTP 500") "key"
      gemOutcomeW = .chatOk "namaste" "gemini" (some "gemini-2.5-flash") ∧
    (∃ msg, msg ≠ "" ∧
      chatHandlerFile "hello" (.error "OpenAI error HTTP 500") "key"
        gemOutcomeFail = .serverError msg) ∧
    chatHandlerDB "hello" (.error "OpenAI error HTTP 500") =
      .serverError "OpenAI error HTTP 500" := by
  refine ⟨?_, ?_, ?_, ?_⟩
  · exact ((chat_fallback "hello" "OpenAI error HTTP 500" "" gemOutcomeW
      (by decide)).1 rfl).1
  · exact (chat_fallback "hello" "OpenAI error HTTP 500" "key" gemOutcomeW
      (by decide)).2.1 (by decide) ["gemini-2.0-flash"] "gemini-2.5-flash"
      ["gemini-2.0-flash-lite-001"] " namaste " rfl (by decide) rfl
      (by decide)
  · exact (chat_fallback "hello" "OpenAI error HTTP 500" "key"
      gemOutcomeFail (by decide)).2.2.1 (by decide) (by decide)
  · exact (chat_fallback "hello" "OpenAI error HTTP 500" "key" gemOutcomeW
      (by decide)).2.2.2.1

/-! ## C7: upstream message list for an empty history -/

/-- C7: with `history = []` and `message = "hello"`, both variants
construct exactly the fixed system/developer instruction followed by
one user turn containing the message, in that order. -/
theorem chat_hello_messages :
    buildMessages "hello" (some []) =
      [sslSystemMsg, { role := "user", content := "hello" }] ∧
    openAIInput "hello" (some []) =
      [sslDeveloperMsg, { role := "user", content := "hello" }] :=
  ⟨rfl, rfl⟩

/-! ## C9: history filtering in the file-backed variant -/

/-- C9: `buildMessages` drops `null` history entries and entries whose
role is none of `user`, `model`, `assistant`; the kept entries appear
between the system instruction and the final user turn in their
original order, with `user` kept as `user`, `model`/`assistant` mapped
to `assistant`, and a missing `text` field becoming the empty
string. -/
theorem buildMessages_history_filtering (message : String)
    (hist : List (Option HistEntry)) :
    buildMessages message (some hist) =
      sslSystemMsg ::
        ((((hist.filterMap id).filter (fun h =>
              h.role == "user" || h.role == "model" ||
                h.role == "assistant")).map
            (fun h =>
              { role := if h.role = "user" then "user" else "assistant",
                content := h.text.getD "" }))
          ++ [{ role := "user", content := message }]) := by
  unfold buildMessages
  simp only [Option.getD_some, List.cons.injEq, true_and,
    List.append_cancel_right_eq]
  induction hist with
  | nil => rfl
  | cons h t ih =>
    cases h with
    | none => simpa using ih
    | some e =>
      by_cases hu : e.role = "user"
      · simp [mapHistEntry, hu, ih]
      · by_cases hm : e.role = "model"
        · simp [mapHistEntry, hu, hm, ih]
        · by_cases ha : e.role = "assistant"
          · simp [mapHistEntry, hu, hm, ha, ih]
          · simp [mapHistEntry, hu, hm, ha, ih]

/-! ## C10: POST /api/data without a students array -/

/-- C10: when the body carries no array at `students` and none at
`data.students`, the handler re-saves the loaded document verbatim and
answers `\x7bok:true\x7d`; and for every body whatsoever the handler
only ever changes the `students` field — `archived` and `settings` are
preserved and the answer is `\x7bok:true\x7d`. -/
theorem postData_no_students (body : Option JVal) (st : AppState JVal)
    (h1 : body.bind
        (fun b => (b.getField "students").bind JVal.asArray) = none)
    (h2 : body.bind (fun b => (b.getField "data").bind
        (fun d => (d.getField "students").bind JVal.asArray)) = none) :
    postData body st = (st, true) ∧
    ∀ (b : Option JVal) (st' : AppState JVal),
      (postData b st').1.archived = st'.archived ∧
      (postData b st').1.settings = st'.settings ∧
      (postData b st').2 = true := by
  constructor
  · unfold postData
    rw [h1, h2]
  · intro b st'
    unfold postData
    cases b.bind (fun x => (x.getField "students").bind JVal.asArray) with
    | some xs => exact ⟨rfl, rfl, rfl⟩
    | none =>
      cases b.bind (fun x => (x.getField "data").bind
          (fun d => (d.getField "students").bind JVal.asArray)) with
      | some xs => exact ⟨rfl, rfl, rfl⟩
      | none => exact ⟨rfl, rfl, rfl⟩

/-- C10 witness: the theorem applied to a concrete body with no
students array at either position and a concrete document. -/
theorem postData_no_students_witness :
    postData bodyNoStudents stC10 = (stC10, true) ∧
    (postData (some (JVal.num 3)) stC10).1.archived = stC10.archived ∧
    (postData (some (JVal.num 3)) stC10).1.settings = stC10.settings ∧
    (postData (some (JVal.num 3)) stC10).2 = true :=
  ⟨(postData_no_students bodyNoStudents stC10 rfl rfl).1,
   (postData_no_students bodyNoStudents stC10 rfl rfl).2
     (some (JVal.num 3)) stC10⟩

/-! ## C8: settings merge and secret stripping -/

/-- Looking a key up in the override-mapped old part of a spread: the
entry is found at the old position, carrying the overriding value when
the new object has the key. -/
theorem lookup_spread_map (old nw : List (String × JVal)) (k : String) :
    List.lookup k
        (old.map (fun kv => (kv.1, ((nw.lookup kv.1).getD kv.2)))) =
      (List.lookup k old).map (fun w => (List.lookup k nw).getD w) := by
  induction old with
  | nil => rfl
  | cons kv old ih =>
    obtain ⟨k', v⟩ := kv
    simp only [List.map_cons, List.lookup_cons]
    cases hkk : k == k' with
    | true =>
      have hk : k = k' := beq_iff_eq.mp hkk
      subst hk
      rfl
    | false => exact ih

/-- Looking up a key absent from `old` in the filtered new part of a
spread: the filter keeps every entry with that key, so the lookup
agrees with the lookup in the unfiltered new object. -/
theorem lookup_filter_left_none (old nw : List (String × JVal))
    (k : String) (h : List.lookup k old = none) :
    List.lookup k
        (nw.filter (fun kv => (old.lookup kv.1).isNone)) =
      List.lookup k nw := by
  induction nw with
  | nil => rfl
  | cons kv nw ih =>
    obtain ⟨k', v⟩ := kv
    cases hkk : k == k' with
    | true =>
      have hk : k = k' := beq_iff_eq.mp hkk
      subst hk
      simp [List.filter_cons, List.lookup_cons, h]
    | false =>
      simp only [List.filter_cons]
      cases hg : (List.lookup k' old).isNone with
      | true =>
        simp [List.lookup_cons, hkk, ih]
      | false =>
        simp [List.lookup_cons, hkk, ih]

/-- A key absent from a key-value list is absent from any filtering of
it. -/
theorem lookup_filter_none (nw : List (String × JVal))
    (g : String × JVal → Bool) (k : String)
    (h : List.lookup k nw = none) :
    List.lookup k (nw.filter g) = none := by
  induction nw with
  | nil => rfl
  | cons kv nw ih =>
    obtain ⟨k', v⟩ := kv
    rw [List.lookup_cons] at h
    cases hkk : k == k' with
    | true => simp [hkk] at h
    | false =>
      simp only [hkk] at h
      simp only [List.filter_cons]
      cases hg : g (k', v) with
      | true => simp [List.lookup_cons, hkk, ih h]
      | false => simp [ih h]

/-- `delete obj[k]` removes every entry with key `k`. -/
theorem lookup_deleteKey_self (s : List (String × JVal)) (k : String) :
    List.lookup k (deleteKey s k) = none := by
  induction s with
  | nil => rfl
  | cons kv s ih =>
    obtain ⟨k', v⟩ := kv
    unfold deleteKey
    rw [List.filter_cons]
    cases hkk : k' != k with
    | true =>
      rw [if_pos rfl, List.lookup_cons]
      have hk : (k == k') = false := by
        simp only [bne_iff_ne] at hkk
        exact beq_eq_false_iff_ne.mpr (Ne.symm hkk)
      rw [hk]
      exact ih
    | false =>
      rw [if_neg (by simp [hkk])]
      exact ih

/-- `delete obj[k']` leaves the lookup of any other key unchanged. -/
theorem lookup_deleteKey_other (s : List (String × JVal))
    (k k' : String) (h : k ≠ k') :
    List.lookup k (deleteKey s k') = List.lookup k s := by
  induction s with
  | nil => rfl
  | cons kv s ih =>
    obtain ⟨k'', v⟩ := kv
    unfold deleteKey
    rw [List.filter_cons]
    cases hkk : k'' != k' with
    | true =>
      rw [if_pos rfl, List.lookup_cons, List.lookup_cons]
      cases hk : k == k'' with
      | true => rfl
      | false => exact ih
    | false =>
      have hk'' : k'' = k' := by
        simpa using hkk
      subst hk''
      rw [if_neg (by simp [hkk]), List.lookup_cons]
      have hk : (k == k'') = false := beq_eq_false_iff_ne.mpr h
      rw [hk]
      exact ih

/-- A key present in the posted body is present (with the body's value)
in the spread-merged settings, wherever it sat in the old settings. -/
theorem lookup_spreadMerge_of_new (old nw : List (String × JVal))
    (k : String) (v : JVal) (h : List.lookup k nw = some v) :
    List.lookup k (spreadMerge old nw) = some v := by
  unfold spreadMerge
  rw [List.lookup_append, lookup_spread_map]
  cases hold : List.lookup k old with
  | none =>
    rw [lookup_filter_left_none old nw k hold, h]
    rfl
  | some w =>
    simp [h]

/-- A key absent from both the old settings and the posted body is
absent from the spread-merged settings. -/
theorem lookup_spreadMerge_of_none (old nw : List (String × JVal))
    (k : String) (h1 : List.lookup k old = none)
    (h2 : List.lookup k nw = none) :
    List.lookup k (spreadMerge old nw) = none := by
  unfold spreadMerge
  rw [List.lookup_append, lookup_spread_map, h1,
    lookup_filter_none nw _ k h2]
  rfl

/-- C8 counterexample: (file variant) the settings endpoints are no-ops
— after any posts, `GET /api/settings` answers the fixed
`\x7bok:true\x7d`, never `\x7ba:1,b:2\x7d`; (database variant) the
handler deletes `openaiKey` only when its merged value is truthy, so
after posting `\x7bopenaiKey:"x"\x7d` a later post of
`\x7bopenaiKey:""\x7d` persists the field, and the subsequent GET
contains `openaiKey` — contradicting both parts of the claim. -/
theorem settings_claim_counterexample :
    settingsPostFile (some (.obj [("a", JVal.num 1)])) = settingsGetFile ∧
    settingsGetFile ≠ JVal.obj [("a", JVal.num 1), ("b", JVal.num 2)] ∧
    List.lookup "openaiKey"
        (settingsGet (settingsPost [("openaiKey", JVal.str "")]
          (settingsPost [("openaiKey", JVal.str "x")]
            (emptyAppState (σ := JVal))))) = some (JVal.str "") := by
  refine ⟨rfl, ?_, rfl⟩
  intro h
  rw [settingsGetFile] at h
  injection h with h
  injection h with h
  injection h with h
  exact absurd h (by decide)

/-- C8 (amended): in the database variant, settings are shallow-merged
across posts — posting `\x7ba:1\x7d` then `\x7bb:2\x7d` onto empty
settings makes GET answer `\x7ba:1,b:2\x7d` — and a truthy posted
`openaiKey` is stripped before persisting; the absence of `openaiKey`
is preserved by any later post not carrying the field (a later post
with a falsy `openaiKey` value would persist it).  In the file variant
both settings endpoints are no-ops that always answer
`\x7bok:true\x7d`. -/
theorem settings_merge_and_strip :
    (∀ st : AppState JVal, st.settings = [] →
      settingsGet (settingsPost [("b", JVal.num 2)]
        (settingsPost [("a", JVal.num 1)] st)) =
        [("a", JVal.num 1), ("b", JVal.num 2)]) ∧
    (∀ (st : AppState JVal) (body : List (String × JVal)) (v : JVal),
      List.lookup "openaiKey" body = some v → v.truthy = true →
      List.lookup "openaiKey" (settingsGet (settingsPost body st)) =
        none) ∧
    (∀ (st : AppState JVal) (body : List (String × JVal)),
      List.lookup "openaiKey" st.settings = none →
      List.lookup "openaiKey" body = none →
      List.lookup "openaiKey" (settingsGet (settingsPost body st)) =
        none) ∧
    (∀ body : Option JVal, settingsPostFile body = settingsGetFile) := by
  refine ⟨?_, ?_, ?_, fun _ => rfl⟩
  · intro st hst
    simp only [settingsGet, settingsPost, hst]
    rfl
  · intro st body v hb hv
    have hm : List.lookup "openaiKey" (spreadMerge st.settings body) =
        some v := lookup_spreadMerge_of_new _ _ _ _ hb
    have ht : truthyField (spreadMerge st.settings body) "openaiKey" =
        true := by
      unfold truthyField
      rw [hm]
      exact hv
    simp only [settingsGet, settingsPost, ht, if_true]
    split
    · rw [lookup_deleteKey_other _ _ _ (by decide), lookup_deleteKey_self]
    · rw [lookup_deleteKey_self]
  · intro st body h1 h2
    have hm : List.lookup "openaiKey" (spreadMerge st.settings body) =
        none := lookup_spreadMerge_of_none _ _ _ h1 h2
    have ht : truthyField (spreadMerge st.settings body) "openaiKey" =
        false := by
      unfold truthyField
      rw [hm]
    simp only [settingsGet, settingsPost, ht, Bool.false_eq_true, if_false]
    split
    · rw [lookup_deleteKey_other _ _ _ (by decide)]
      exact hm
    · exact hm

/-- C8 witness: the amended theorem applied to concrete posts on empty
settings — the merge scenario, a truthy secret being stripped, a post
without the secret preserving its absence, and the file no-op. -/
theorem settings_merge_and_strip_witness :
    settingsGet (settingsPost [("b", JVal.num 2)]
      (settingsPost [("a", JVal.num 1)] (emptyAppState (σ := JVal)))) =
      [("a", JVal.num 1), ("b", JVal.num 2)] ∧
    List.lookup "openaiKey" (settingsGet (settingsPost
      [("openaiKey", JVal.str "x")] (emptyAppState (σ := JVal)))) =
      none ∧
    List.lookup "openaiKey" (settingsGet (settingsPost
      [("theme", JVal.str "dark")] (emptyAppState (σ := JVal)))) =
      none ∧
    settingsPostFile (some (JVal.obj [("b", JVal.num 2)])) =
      settingsGetFile :=
  ⟨settings_merge_and_strip.1 emptyAppState rfl,
   settings_merge_and_strip.2.1 emptyAppState
     [("openaiKey", JVal.str "x")] (JVal.str "x") rfl (by decide),
   settings_merge_and_strip.2.2.1 emptyAppState
     [("theme", JVal.str "dark")] rfl rfl,
   settings_merge_and_strip.2.2.2 (some (JVal.obj [("b", JVal.num 2)]))⟩
